import Mathlib

/-!
Verification development for the TaxiFareNY single-page fare-estimation app
(`app.py`). The app is a Streamlit script; we shallowly embed its pure logic
and its event handlers as Lean functions over explicit state:

* coordinates are modelled as exact rationals (`ℚ`);
* wall-clock instants used by the quarter-hour rounding logic are modelled
  linearly, as a count of microseconds (`ℕ`), so that `timedelta` addition is
  plain addition and `replace(second=0, microsecond=0)` is flooring to the
  minute;
* the `datetime` values compared and formatted at submit time are modelled as
  records of calendar fields, ordered lexicographically exactly as Python
  orders `datetime` values;
* the Streamlit render cycle is one function from the previous session state
  and this cycle's external events (map clicks, geocoder outcome, button
  press, HTTP outcome) to the next state and everything displayed.
-/

namespace TaxiFare

/-- The NYC bounding box constants (`NYC_BOUNDS` in `app.py`). -/
structure Bounds where
  min_lon : ℚ
  max_lon : ℚ
  min_lat : ℚ
  max_lat : ℚ
deriving DecidableEq

/-- The constants of `NYC_BOUNDS` in `app.py`: -74.25, -73.70, 40.50,
40.92. They are written with `mkRat` (e.g. -7425/100 = -74.25) so that they
are kernel-computable; the lemmas `NYC_min_lon_eq` … below restate each as
its decimal literal. -/
def NYC_BOUNDS : Bounds :=
  { min_lon := mkRat (-7425) 100
    max_lon := mkRat (-7370) 100
    min_lat := mkRat 4050 100
    max_lat := mkRat 4092 100 }

/-- `DEFAULT_LAT = 40.75`. -/
def DEFAULT_LAT : ℚ := mkRat 4075 100

/-- `DEFAULT_LON = -73.98`. -/
def DEFAULT_LON : ℚ := mkRat (-7398) 100

/-- `is_within_nyc(lon, lat)`: strict-inequality box test, as in `app.py`
(`NYC_BOUNDS["min_lon"] < lon < NYC_BOUNDS["max_lon"] and ...`). -/
def is_within_nyc (lon lat : ℚ) : Bool :=
  decide (NYC_BOUNDS.min_lon < lon ∧ lon < NYC_BOUNDS.max_lon ∧
          NYC_BOUNDS.min_lat < lat ∧ lat < NYC_BOUNDS.max_lat)

/-! ### Quarter-hour rounding of the default time

`now` is a linear instant in microseconds. `now.minute` is the minute of the
hour; adding a `timedelta` of minutes adds `60_000_000` microseconds per
minute; `.replace(second=0, microsecond=0)` floors to the whole minute. -/

def usPerMin : ℕ := 60000000

def usPerQuarter : ℕ := 900000000

/-- `now.minute` for a linear instant `t` in microseconds. -/
def nowMinute (t : ℕ) : ℕ := (t / usPerMin) % 60

/-- `minutes_to_next = (15 - (now.minute % 15)) % 15` from `app.py`. -/
def minutes_to_next (t : ℕ) : ℕ := (15 - nowMinute t % 15) % 15

/-- `rounded_time = (now + timedelta(minutes=minutes_to_next)).replace(second=0, microsecond=0)`
from `app.py`, on linear instants. -/
def rounded_time (t : ℕ) : ℕ :=
  ((t + minutes_to_next t * usPerMin) / usPerMin) * usPerMin

/-! ### Python `datetime` values as calendar-field records -/

/-- A Python `datetime.datetime` value, as its calendar fields. Python compares
two such values lexicographically by field. -/
structure PyDatetime where
  year : ℕ
  month : ℕ
  day : ℕ
  hour : ℕ
  minute : ℕ
  second : ℕ
  microsecond : ℕ
deriving DecidableEq

/-- Python's `a <= b` on `datetime` values: lexicographic field comparison. -/
def PyDatetime.leb (a b : PyDatetime) : Bool :=
  if a.year ≠ b.year then decide (a.year < b.year)
  else if a.month ≠ b.month then decide (a.month < b.month)
  else if a.day ≠ b.day then decide (a.day < b.day)
  else if a.hour ≠ b.hour then decide (a.hour < b.hour)
  else if a.minute ≠ b.minute then decide (a.minute < b.minute)
  else if a.second ≠ b.second then decide (a.second < b.second)
  else decide (a.microsecond ≤ b.microsecond)

/-- The chronological order on datetimes, stated from the spec's words
("pickup_datetime as submitted must be ≥ wall-clock time"): `a` is at or
before `b`, as a lexicographic Prop on the calendar fields. -/
def PyDatetime.LeLex (a b : PyDatetime) : Prop :=
  a.year < b.year ∨ (a.year = b.year ∧
  (a.month < b.month ∨ (a.month = b.month ∧
  (a.day < b.day ∨ (a.day = b.day ∧
  (a.hour < b.hour ∨ (a.hour = b.hour ∧
  (a.minute < b.minute ∨ (a.minute = b.minute ∧
  (a.second < b.second ∨ (a.second = b.second ∧
  a.microsecond ≤ b.microsecond)))))))))))

/-- `dt_valid = dt_raw >= now` from `app.py`. -/
def dt_valid (dt_raw now : PyDatetime) : Bool :=
  PyDatetime.leb now dt_raw

/-- Zero-pad a numeral to two digits (`strftime` field formatting). -/
def pad2 (n : ℕ) : String :=
  if n < 10 then "0" ++ toString n else toString n

/-- Zero-pad a numeral to four digits (`strftime` `%Y`). -/
def pad4 (n : ℕ) : String :=
  if n < 10 then "000" ++ toString n
  else if n < 100 then "00" ++ toString n
  else if n < 1000 then "0" ++ toString n
  else toString n

/-- `dt_raw.strftime("%Y-%m-%d %H:%M:%S")` from `app.py`. -/
def strftimeYmdHMS (d : PyDatetime) : String :=
  pad4 d.year ++ "-" ++ pad2 d.month ++ "-" ++ pad2 d.day ++ " " ++
  pad2 d.hour ++ ":" ++ pad2 d.minute ++ ":" ++ pad2 d.second

/-! ### Session state and the submit handler -/

/-- The four coordinate fields kept in `st.session_state`. -/
structure SessionState where
  pickup_lat : ℚ
  pickup_lon : ℚ
  dropoff_lat : ℚ
  dropoff_lon : ℚ
deriving DecidableEq

/-- The session-state initialisation loop in section 4 of `app.py`: every
`lat` key defaults to `DEFAULT_LAT`, every `lon` key to `DEFAULT_LON`. -/
def initState : SessionState :=
  { pickup_lat := DEFAULT_LAT
    pickup_lon := DEFAULT_LON
    dropoff_lat := DEFAULT_LAT
    dropoff_lon := DEFAULT_LON }

/-- The sidebar widget values read on a render cycle. -/
structure Sidebar where
  dt_raw : PyDatetime
  passenger_count : ℕ
deriving DecidableEq

/-- The `params` dictionary built by the submit handler. -/
structure Params where
  pickup_datetime : String
  pickup_longitude : ℚ
  pickup_latitude : ℚ
  dropoff_longitude : ℚ
  dropoff_latitude : ℚ
  passenger_count : ℕ
deriving DecidableEq

/-- One `requests.get(API_URL, params=params, timeout=10)` call. -/
structure HttpRequest where
  url : String
  params : Params
  timeout : ℕ
deriving DecidableEq

/-- What the environment would answer to the fare request: the `except`
branch fires with message `e`, or a response arrives with a status code and
the value of `resp.json().get("fare")` (`none` when the key is missing). -/
inductive ApiOutcome where
  | exn (e : String)
  | resp (status : ℕ) (fare : Option ℚ)
deriving DecidableEq

/-- One user-visible message: `st.error` or `st.success`. -/
inductive Display where
  | errMsg (s : String)
  | okMsg (s : String)
deriving DecidableEq

/-- What one press of the Estimate Fare button produced: the list of HTTP
requests actually issued (empty or a single GET — the code has no retry
loop) and the message displayed. -/
structure SubmitResult where
  requests : List HttpRequest
  message : Display
deriving DecidableEq

/-- Everything the submit handler reads: session state, the combined
`dt_raw`, the wall clock `now`, and the passenger slider. -/
structure SubmitCtx where
  state : SessionState
  dt_raw : PyDatetime
  now : PyDatetime
  passenger_count : ℕ
deriving DecidableEq

/-- The number of cents in a fare: the nearest integer to `100 * q`, ties
going to the even integer — the rounding Python applies when formatting a
float value with `:.2f`. Written with integer operations on `num`/`den` so
it is kernel-computable. -/
def cents (q : ℚ) : ℤ :=
  let n : ℤ := 100 * q.num
  let d : ℤ := (q.den : ℤ)
  let c : ℤ := Int.fdiv n d
  let r : ℤ := n - c * d
  if 2 * r < d then c
  else if d < 2 * r then c + 1
  else if c % 2 = 0 then c else c + 1

/-- `f"{float(fare):.2f}"`: the fare value rendered with two decimal
digits, i.e. its cents count printed with a decimal point before the last
two digits. -/
def format2 (q : ℚ) : String :=
  let c : ℤ := cents q
  let sign := if c < 0 then "-" else ""
  let n := c.natAbs
  let r := n % 100
  sign ++ toString (n / 100) ++ "." ++ (if r < 10 then "0" else "") ++ toString r

/-- The message `st.success(f"Estimated Fare: **${float(fare):.2f}**")`. -/
def fareMessage (fare : ℚ) : String :=
  "Estimated Fare: **$" ++ format2 fare ++ "**"

/-- The `params` dictionary as built from session state and sidebar inputs
in `app.py`. -/
def mkParams (ctx : SubmitCtx) : Params :=
  { pickup_datetime := strftimeYmdHMS ctx.dt_raw
    pickup_longitude := ctx.state.pickup_lon
    pickup_latitude := ctx.state.pickup_lat
    dropoff_longitude := ctx.state.dropoff_lon
    dropoff_latitude := ctx.state.dropoff_lat
    passenger_count := ctx.passenger_count }

/-- The body of `if st.button("Estimate Fare", ...)` in `app.py`: the
three guards in source order, then one GET and the response case split. -/
def estimateFare (apiUrl : String) (ctx : SubmitCtx) (api : ApiOutcome) :
    SubmitResult :=
  if dt_valid ctx.dt_raw ctx.now = false then
    { requests := [], message := .errMsg "Please select a valid future time." }
  else if is_within_nyc ctx.state.pickup_lon ctx.state.pickup_lat = false then
    { requests := [], message := .errMsg "Pickup outside NYC." }
  else if is_within_nyc ctx.state.dropoff_lon ctx.state.dropoff_lat = false then
    { requests := [], message := .errMsg "Dropoff outside NYC." }
  else
    let req : HttpRequest := { url := apiUrl, params := mkParams ctx, timeout := 10 }
    match api with
    | .exn e => { requests := [req], message := .errMsg ("Network error: " ++ e) }
    | .resp status fare =>
      if status = 200 then
        match fare with
        | some f => { requests := [req], message := .okMsg (fareMessage f) }
        | none => { requests := [req], message := .errMsg "No \x27fare\x27 in API response." }
      else
        { requests := [req], message := .errMsg ("API error " ++ toString status) }

/-! ### Map clicks, geocoding and the whole render cycle -/

/-- One `last_clicked` payload from a folium map. -/
structure ClickEvent where
  lat : ℚ
  lon : ℚ
deriving DecidableEq

/-- One map-click handler from `app.py`: when a click arrived this cycle,
commit it to the coordinate pair when it passes the geofence, otherwise keep
the pair and emit `errText`. Returns the new `(lat, lon)` and the optional
error. -/
def applyClick (curLat curLon : ℚ) (click : Option ClickEvent)
    (errText : String) : (ℚ × ℚ) × Option String :=
  match click with
  | none => ((curLat, curLon), none)
  | some e =>
    if is_within_nyc e.lon e.lat then ((e.lat, e.lon), none)
    else ((curLat, curLon), some errText)

/-- Outcome of one `geolocator.reverse` lookup: a truthy result with an
address, a `None` result, or a raised exception. -/
inductive GeoOutcome where
  | ok (address : String)
  | okNone
  | exn
deriving DecidableEq

/-- The caption rendered under a map: the try/except around
`geolocator.reverse` in `app.py`. -/
def geocodeCaption (g : GeoOutcome) : String :=
  match g with
  | .ok address => "📨 Address: " ++ address
  | .okNone => "📨 Address: Not found"
  | .exn => "Address lookup unavailable."

/-- The external events of one render cycle. -/
structure RenderInput where
  pickClick : Option ClickEvent
  dropClick : Option ClickEvent
  pickGeo : GeoOutcome
  dropGeo : GeoOutcome
  submit : Bool
  api : ApiOutcome
deriving DecidableEq

/-- Everything one render cycle leaves behind or displays. -/
structure RenderOutput where
  state : SessionState
  sidebar : Sidebar
  pickError : Option String
  dropError : Option String
  pickCaption : String
  dropCaption : String
  submitResult : Option SubmitResult
deriving DecidableEq

/-- One full top-to-bottom run of the script body of `app.py`: the pickup
click handler, the dropoff click handler, the two geocode captions, and —
when the button was pressed — the submit handler on the updated state. -/
def renderStep (apiUrl : String) (now : PyDatetime) (s : SessionState)
    (sb : Sidebar) (inp : RenderInput) : RenderOutput :=
  let p := applyClick s.pickup_lat s.pickup_lon inp.pickClick
    "Selected pickup is outside NYC."
  let d := applyClick s.dropoff_lat s.dropoff_lon inp.dropClick
    "Selected dropoff is outside NYC."
  let s' : SessionState :=
    { pickup_lat := p.1.1, pickup_lon := p.1.2
      dropoff_lat := d.1.1, dropoff_lon := d.1.2 }
  { state := s'
    sidebar := sb
    pickError := p.2
    dropError := d.2
    pickCaption := geocodeCaption inp.pickGeo
    dropCaption := geocodeCaption inp.dropGeo
    submitResult :=
      if inp.submit then
        some (estimateFare apiUrl
          { state := s', dt_raw := sb.dt_raw, now := now,
            passenger_count := sb.passenger_count } inp.api)
      else none }

/-- The session states reachable from the default initialisation through any
number of render cycles. -/
inductive Reachable : SessionState → Prop where
  | init : Reachable initState
  | step (s : SessionState) (apiUrl : String) (now : PyDatetime)
      (sb : Sidebar) (inp : RenderInput) :
      Reachable s → Reachable (renderStep apiUrl now s sb inp).state

/-! ### Concrete fixtures used by witnesses -/

def dtPast : PyDatetime := ⟨2020, 1, 1, 0, 0, 0, 0⟩

def dtFuture : PyDatetime := ⟨2026, 1, 1, 0, 0, 0, 0⟩

/-- A submit context whose three preconditions all pass. -/
def ctxValid : SubmitCtx :=
  { state := initState
    dt_raw := dtFuture
    now := dtPast
    passenger_count := 2 }

/-- A submit context whose selected time is in the past. -/
def ctxPastTime : SubmitCtx :=
  { state := initState
    dt_raw := dtPast
    now := dtFuture
    passenger_count := 1 }

/-- A submit context whose pickup coordinate (0, 0) fails the geofence. -/
def ctxBadPickup : SubmitCtx :=
  { state := { pickup_lat := mkRat 0 1
               pickup_lon := mkRat 0 1
               dropoff_lat := DEFAULT_LAT
               dropoff_lon := DEFAULT_LON }
    dt_raw := dtFuture
    now := dtPast
    passenger_count := 2 }

/-! ### Bridging lemmas: the `mkRat` constants as decimal literals -/

theorem NYC_min_lon_eq : NYC_BOUNDS.min_lon = -74.25 := by
  show (mkRat (-7425) 100 : ℚ) = -74.25
  rw [Rat.mkRat_eq_div]; norm_num

theorem NYC_max_lon_eq : NYC_BOUNDS.max_lon = -73.70 := by
  show (mkRat (-7370) 100 : ℚ) = -73.70
  rw [Rat.mkRat_eq_div]; norm_num

theorem NYC_min_lat_eq : NYC_BOUNDS.min_lat = 40.50 := by
  show (mkRat 4050 100 : ℚ) = 40.50
  rw [Rat.mkRat_eq_div]; norm_num

theorem NYC_max_lat_eq : NYC_BOUNDS.max_lat = 40.92 := by
  show (mkRat 4092 100 : ℚ) = 40.92
  rw [Rat.mkRat_eq_div]; norm_num

theorem DEFAULT_LAT_eq : DEFAULT_LAT = 40.75 := by
  show (mkRat 4075 100 : ℚ) = 40.75
  rw [Rat.mkRat_eq_div]; norm_num

theorem DEFAULT_LON_eq : DEFAULT_LON = -73.98 := by
  show (mkRat (-7398) 100 : ℚ) = -73.98
  rw [Rat.mkRat_eq_div]; norm_num

/-! ### The claims -/

/-- C1: `is_within_nyc(lon, lat)` returns true iff
-74.25 < lon < -73.70 and 40.50 < lat < 40.92, with strict inequalities;
in particular the boundary point (lon = -74.25, lat = 40.75) returns
false. -/
theorem C1_is_within_nyc_strict_box :
    (∀ lon lat : ℚ, is_within_nyc lon lat = true ↔
        (-74.25 < lon ∧ lon < -73.70 ∧ 40.50 < lat ∧ lat < 40.92)) ∧
    is_within_nyc (-74.25) 40.75 = false := by
  have hiff : ∀ lon lat : ℚ, is_within_nyc lon lat = true ↔
      (-74.25 < lon ∧ lon < -73.70 ∧ 40.50 < lat ∧ lat < 40.92) := by
    intro lon lat
    simp [is_within_nyc, NYC_min_lon_eq, NYC_max_lon_eq, NYC_min_lat_eq,
      NYC_max_lat_eq]
  refine ⟨hiff, ?_⟩
  cases h : is_within_nyc (-74.25) 40.75
  · rfl
  · exact absurd ((hiff _ _).mp h).1 (lt_irrefl _)

/-- C3 counterexample: at a wall-clock time of 15 minutes 30 seconds past
the hour (930000000 microseconds), the code rounds down to the 15-minute
mark (900000000 microseconds), which is strictly before the current time —
so the result is not the least grid boundary greater than or equal to the
current time. -/
theorem C3_counterexample_seconds_round_down :
    rounded_time 930000000 = 900000000 ∧
    ¬ (930000000 ≤ rounded_time 930000000) := by decide

/-- C3 (amended): the pre-filled default time equals the least 15-minute
grid boundary that is greater than or equal to the current time truncated
to whole minutes: the result is a multiple of 15 minutes, at least the
truncation, and less than the truncation plus 15 minutes. For current
times with zero seconds and microseconds this is the least boundary at or
after the current time, as the claim states. -/
theorem C3_rounded_time_least_boundary : ∀ t : ℕ,
    rounded_time t % usPerQuarter = 0 ∧
    (t / usPerMin) * usPerMin ≤ rounded_time t ∧
    rounded_time t < (t / usPerMin) * usPerMin + usPerQuarter := by
  intro t
  simp only [rounded_time, minutes_to_next, nowMinute, usPerMin, usPerQuarter]
  omega

/-- C6: the submit-time check accepts exactly when the combined selected
date+time is at or after the current wall-clock time (the lexicographic
datetime order); a time one minute before now is rejected and one minute
after now is accepted; and on rejection the time-validation error is
displayed before any other check runs, with no request issued. -/
theorem C6_time_check_accepts_iff_not_past :
    (∀ dt now : PyDatetime, dt_valid dt now = true ↔ PyDatetime.LeLex now dt) ∧
    dt_valid ⟨2026, 10, 12, 10, 29, 0, 0⟩ ⟨2026, 10, 12, 10, 30, 0, 0⟩ = false ∧
    dt_valid ⟨2026, 10, 12, 10, 31, 0, 0⟩ ⟨2026, 10, 12, 10, 30, 0, 0⟩ = true ∧
    (∀ (apiUrl : String) (ctx : SubmitCtx) (api : ApiOutcome),
      dt_valid ctx.dt_raw ctx.now = false →
      estimateFare apiUrl ctx api =
        { requests := [], message := .errMsg "Please select a valid future time." }) := by
  refine ⟨?_, by decide, by decide, ?_⟩
  · intro dt now
    simp only [dt_valid, PyDatetime.leb, PyDatetime.LeLex]
    split_ifs <;> simp_all
  · intro u ctx api h
    simp [estimateFare, h]

/-- Witness for C6: a submit with the selected datetime in the past is
rejected with the time-validation message and no request. -/
theorem C6_time_check_witness :
    estimateFare "u" ctxPastTime (.exn "boom") =
      { requests := [], message := .errMsg "Please select a valid future time." } :=
  C6_time_check_accepts_iff_not_past.2.2.2 "u" ctxPastTime (.exn "boom") (by decide)

/-- C2: the submit handler checks, in order, (1) the combined date+time is
not in the past, (2) the pickup passes the geofence, (3) the dropoff passes
the geofence; it short-circuits on the first failure, each failure has its
own distinct error message, and no HTTP request is issued on any failure. -/
theorem C2_preconditions_ordered_short_circuit :
    ∀ (apiUrl : String) (ctx : SubmitCtx) (api : ApiOutcome),
      (dt_valid ctx.dt_raw ctx.now = false →
        estimateFare apiUrl ctx api =
          { requests := [], message := .errMsg "Please select a valid future time." }) ∧
      (dt_valid ctx.dt_raw ctx.now = true →
        is_within_nyc ctx.state.pickup_lon ctx.state.pickup_lat = false →
        estimateFare apiUrl ctx api =
          { requests := [], message := .errMsg "Pickup outside NYC." }) ∧
      (dt_valid ctx.dt_raw ctx.now = true →
        is_within_nyc ctx.state.pickup_lon ctx.state.pickup_lat = true →
        is_within_nyc ctx.state.dropoff_lon ctx.state.dropoff_lat = false →
        estimateFare apiUrl ctx api =
          { requests := [], message := .errMsg "Dropoff outside NYC." }) ∧
      ((Display.errMsg "Please select a valid future time." ≠
          Display.errMsg "Pickup outside NYC.") ∧
       (Display.errMsg "Please select a valid future time." ≠
          Display.errMsg "Dropoff outside NYC.") ∧
       (Display.errMsg "Pickup outside NYC." ≠
          Display.errMsg "Dropoff outside NYC.")) := by
  intro u ctx api
  refine ⟨fun h1 => ?_, fun h1 h2 => ?_, fun h1 h2 h3 => ?_, by decide⟩
  · simp [estimateFare, h1]
  · simp [estimateFare, h1, h2]
  · simp [estimateFare, h1, h2, h3]

/-- Witness for C2: with a valid time but the pickup at (0, 0), the submit
stops at the pickup geofence check and issues no request. -/
theorem C2_preconditions_witness :
    estimateFare "u" ctxBadPickup (.resp 200 (some (mkRat 125 10))) =
      { requests := [], message := .errMsg "Pickup outside NYC." } :=
  (C2_preconditions_ordered_short_circuit "u" ctxBadPickup
    (.resp 200 (some (mkRat 125 10)))).2.1 (by decide) (by decide)

/-- C4: once the preconditions pass, exactly one request is issued in every
case (no retry), and the displayed result follows the response case split:
transport failure gives the network-error message, a non-200 status gives a
message carrying the status code, a 200 response without a `fare` key gives
the missing-fare message, and a 200 response with a fare shows the value
formatted to two decimal places. -/
theorem C4_response_case_analysis :
    ∀ (apiUrl : String) (ctx : SubmitCtx),
      dt_valid ctx.dt_raw ctx.now = true →
      is_within_nyc ctx.state.pickup_lon ctx.state.pickup_lat = true →
      is_within_nyc ctx.state.dropoff_lon ctx.state.dropoff_lat = true →
      (∀ api : ApiOutcome, (estimateFare apiUrl ctx api).requests =
          [{ url := apiUrl, params := mkParams ctx, timeout := 10 }]) ∧
      (∀ e : String, (estimateFare apiUrl ctx (.exn e)).message =
          .errMsg ("Network error: " ++ e)) ∧
      (∀ (status : ℕ) (fare : Option ℚ), status ≠ 200 →
        (estimateFare apiUrl ctx (.resp status fare)).message =
          .errMsg ("API error " ++ toString status)) ∧
      ((estimateFare apiUrl ctx (.resp 200 none)).message =
          .errMsg "No \x27fare\x27 in API response.") ∧
      (∀ f : ℚ, (estimateFare apiUrl ctx (.resp 200 (some f))).message =
          .okMsg ("Estimated Fare: **$" ++ format2 f ++ "**")) := by
  intro u ctx h1 h2 h3
  refine ⟨?_, ?_, ?_, ?_, ?_⟩
  · intro api
    cases api with
    | exn e => simp [estimateFare, h1, h2, h3]
    | resp status fare =>
      by_cases hs : status = 200
      · cases fare <;> simp [estimateFare, h1, h2, h3, hs]
      · simp [estimateFare, h1, h2, h3, hs]
  · intro e
    simp [estimateFare, h1, h2, h3]
  · intro status fare hs
    cases fare <;> simp [estimateFare, h1, h2, h3, hs]
  · simp [estimateFare, h1, h2, h3]
  · intro f
    simp [estimateFare, h1, h2, h3, fareMessage]

/-- Witness for C4: with every precondition passing and a 200 response
carrying fare 12.5, the displayed message is the fare formatted to two
decimals, "$12.50". -/
theorem C4_response_case_witness :
    (estimateFare "u" ctxValid (.resp 200 (some (mkRat 125 10)))).message =
      .okMsg "Estimated Fare: **$12.50**" := by
  have h := (C4_response_case_analysis "u" ctxValid (by decide) (by decide)
    (by decide)).2.2.2.2 (mkRat 125 10)
  rw [h]
  decide

/-- C7: when all three preconditions pass, exactly one GET is issued, with
a 10-second timeout, and its query parameters are exactly the six fields
built from the session state and the sidebar inputs, with the datetime
formatted as "YYYY-MM-DD HH:MM:SS". -/
theorem C7_request_payload :
    ∀ (apiUrl : String) (ctx : SubmitCtx) (api : ApiOutcome),
      dt_valid ctx.dt_raw ctx.now = true →
      is_within_nyc ctx.state.pickup_lon ctx.state.pickup_lat = true →
      is_within_nyc ctx.state.dropoff_lon ctx.state.dropoff_lat = true →
      (estimateFare apiUrl ctx api).requests =
        [{ url := apiUrl,
           params := { pickup_datetime := strftimeYmdHMS ctx.dt_raw,
                       pickup_longitude := ctx.state.pickup_lon,
                       pickup_latitude := ctx.state.pickup_lat,
                       dropoff_longitude := ctx.state.dropoff_lon,
                       dropoff_latitude := ctx.state.dropoff_lat,
                       passenger_count := ctx.passenger_count },
           timeout := 10 }] := by
  intro u ctx api h1 h2 h3
  cases api with
  | exn e => simp [estimateFare, mkParams, h1, h2, h3]
  | resp status fare =>
    by_cases hs : status = 200
    · cases fare <;> simp [estimateFare, mkParams, h1, h2, h3, hs]
    · simp [estimateFare, mkParams, h1, h2, h3, hs]

/-- Witness for C7: the single request issued for the valid fixture, with
the formatted datetime string and the default coordinates. -/
theorem C7_request_payload_witness :
    (estimateFare "u" ctxValid (.exn "timeout")).requests =
      [{ url := "u",
         params := { pickup_datetime := "2026-01-01 00:00:00",
                     pickup_longitude := mkRat (-7398) 100,
                     pickup_latitude := mkRat 4075 100,
                     dropoff_longitude := mkRat (-7398) 100,
                     dropoff_latitude := mkRat 4075 100,
                     passenger_count := 2 },
         timeout := 10 }] := by
  have h := C7_request_payload "u" ctxValid (.exn "timeout") (by decide)
    (by decide) (by decide)
  rw [h]
  decide

/-- C5: a click inside the geofence updates the corresponding coordinate
pair to the clicked point; a click outside leaves the pair unchanged and
surfaces a geofence error; and a click on one map never modifies the other
map's coordinate. -/
theorem C5_click_updates_are_guarded :
    ∀ (apiUrl : String) (now : PyDatetime) (s : SessionState) (sb : Sidebar)
      (inp : RenderInput),
      (∀ e : ClickEvent, inp.pickClick = some e →
        (is_within_nyc e.lon e.lat = true →
          (renderStep apiUrl now s sb inp).state.pickup_lat = e.lat ∧
          (renderStep apiUrl now s sb inp).state.pickup_lon = e.lon ∧
          (renderStep apiUrl now s sb inp).pickError = none) ∧
        (is_within_nyc e.lon e.lat = false →
          (renderStep apiUrl now s sb inp).state.pickup_lat = s.pickup_lat ∧
          (renderStep apiUrl now s sb inp).state.pickup_lon = s.pickup_lon ∧
          (renderStep apiUrl now s sb inp).pickError =
            some "Selected pickup is outside NYC.")) ∧
      (∀ e : ClickEvent, inp.dropClick = some e →
        (is_within_nyc e.lon e.lat = true →
          (renderStep apiUrl now s sb inp).state.dropoff_lat = e.lat ∧
          (renderStep apiUrl now s sb inp).state.dropoff_lon = e.lon ∧
          (renderStep apiUrl now s sb inp).dropError = none) ∧
        (is_within_nyc e.lon e.lat = false →
          (renderStep apiUrl now s sb inp).state.dropoff_lat = s.dropoff_lat ∧
          (renderStep apiUrl now s sb inp).state.dropoff_lon = s.dropoff_lon ∧
          (renderStep apiUrl now s sb inp).dropError =
            some "Selected dropoff is outside NYC.")) ∧
      (∀ pc : Option ClickEvent,
        (renderStep apiUrl now s sb { inp with pickClick := pc }).state.dropoff_lat =
          (renderStep apiUrl now s sb inp).state.dropoff_lat ∧
        (renderStep apiUrl now s sb { inp with pickClick := pc }).state.dropoff_lon =
          (renderStep apiUrl now s sb inp).state.dropoff_lon) ∧
      (∀ dc : Option ClickEvent,
        (renderStep apiUrl now s sb { inp with dropClick := dc }).state.pickup_lat =
          (renderStep apiUrl now s sb inp).state.pickup_lat ∧
        (renderStep apiUrl now s sb { inp with dropClick := dc }).state.pickup_lon =
          (renderStep apiUrl now s sb inp).state.pickup_lon) := by
  intro u now s sb inp
  refine ⟨fun e he => ⟨fun hw => ?_, fun hw => ?_⟩,
          fun e he => ⟨fun hw => ?_, fun hw => ?_⟩,
          fun pc => ⟨rfl, rfl⟩, fun dc => ⟨rfl, rfl⟩⟩ <;>
    simp [renderStep, applyClick, he, hw]

/-- Witness for C5: clicking the pickup map at (lat 40.8, lon -74), inside
the box, moves the pickup coordinate there with no error surfaced. -/
theorem C5_click_updates_witness :
    (renderStep "u" dtPast initState
        { dt_raw := dtFuture, passenger_count := 2 }
        { pickClick := some ⟨mkRat 408 10, mkRat (-74) 1⟩, dropClick := none,
          pickGeo := .exn, dropGeo := .exn, submit := false,
          api := .exn "" }).state.pickup_lat = mkRat 408 10 ∧
    (renderStep "u" dtPast initState
        { dt_raw := dtFuture, passenger_count := 2 }
        { pickClick := some ⟨mkRat 408 10, mkRat (-74) 1⟩, dropClick := none,
          pickGeo := .exn, dropGeo := .exn, submit := false,
          api := .exn "" }).state.pickup_lon = mkRat (-74) 1 ∧
    (renderStep "u" dtPast initState
        { dt_raw := dtFuture, passenger_count := 2 }
        { pickClick := some ⟨mkRat 408 10, mkRat (-74) 1⟩, dropClick := none,
          pickGeo := .exn, dropGeo := .exn, submit := false,
          api := .exn "" }).pickError = none :=
  ((C5_click_updates_are_guarded "u" dtPast initState
      { dt_raw := dtFuture, passenger_count := 2 }
      { pickClick := some ⟨mkRat 408 10, mkRat (-74) 1⟩, dropClick := none,
        pickGeo := .exn, dropGeo := .exn, submit := false,
        api := .exn "" }).1 ⟨mkRat 408 10, mkRat (-74) 1⟩ rfl).1 (by decide)

/-- C8: the submit handler never mutates state: the session coordinates and
the sidebar values after a render cycle do not depend on whether the button
was pressed nor on the HTTP outcome, and in a cycle with no map clicks they
are exactly the incoming ones, whatever the submit attempt did. -/
theorem C8_submit_never_mutates_state :
    ∀ (apiUrl : String) (now : PyDatetime) (s : SessionState) (sb : Sidebar)
      (inp : RenderInput),
      (∀ (b : Bool) (api : ApiOutcome),
        (renderStep apiUrl now s sb { inp with submit := b, api := api }).state =
          (renderStep apiUrl now s sb inp).state ∧
        (renderStep apiUrl now s sb { inp with submit := b, api := api }).sidebar =
          (renderStep apiUrl now s sb inp).sidebar) ∧
      (inp.pickClick = none → inp.dropClick = none →
        (renderStep apiUrl now s sb inp).state = s ∧
        (renderStep apiUrl now s sb inp).sidebar = sb) := by
  intro u now s sb inp
  refine ⟨fun b api => ⟨rfl, rfl⟩, fun hp hd => ⟨?_, rfl⟩⟩
  cases s
  simp [renderStep, applyClick, hp, hd]

/-- Witness for C8: a clickless cycle whose submit attempt gets an HTTP 500
answer leaves the state and sidebar exactly as they were. -/
theorem C8_submit_never_mutates_witness :
    (renderStep "u" dtPast initState
        { dt_raw := dtFuture, passenger_count := 2 }
        { pickClick := none, dropClick := none, pickGeo := .exn,
          dropGeo := .exn, submit := true,
          api := .resp 500 none }).state = initState ∧
    (renderStep "u" dtPast initState
        { dt_raw := dtFuture, passenger_count := 2 }
        { pickClick := none, dropClick := none, pickGeo := .exn,
          dropGeo := .exn, submit := true,
          api := .resp 500 none }).sidebar =
      { dt_raw := dtFuture, passenger_count := 2 } :=
  (C8_submit_never_mutates_state "u" dtPast initState
    { dt_raw := dtFuture, passenger_count := 2 }
    { pickClick := none, dropClick := none, pickGeo := .exn,
      dropGeo := .exn, submit := true, api := .resp 500 none }).2 rfl rfl

/-- C9: every reverse-geocoding outcome yields a defined caption — the
address on success, "Not found" on an empty result, the unavailability
placeholder on failure — and the geocoding outcome never changes the
session state, the sidebar, or the submit result of the cycle. -/
theorem C9_geocoding_degrades_gracefully :
    (∀ a : String, geocodeCaption (.ok a) = "📨 Address: " ++ a) ∧
    (geocodeCaption .okNone = "📨 Address: Not found") ∧
    (geocodeCaption .exn = "Address lookup unavailable.") ∧
    (∀ (apiUrl : String) (now : PyDatetime) (s : SessionState) (sb : Sidebar)
       (inp : RenderInput) (g g' : GeoOutcome),
      (renderStep apiUrl now s sb { inp with pickGeo := g, dropGeo := g' }).state =
        (renderStep apiUrl now s sb inp).state ∧
      (renderStep apiUrl now s sb { inp with pickGeo := g, dropGeo := g' }).sidebar =
        (renderStep apiUrl now s sb inp).sidebar ∧
      (renderStep apiUrl now s sb { inp with pickGeo := g, dropGeo := g' }).submitResult =
        (renderStep apiUrl now s sb inp).submitResult ∧
      (renderStep apiUrl now s sb inp).pickCaption = geocodeCaption inp.pickGeo ∧
      (renderStep apiUrl now s sb inp).dropCaption = geocodeCaption inp.dropGeo) :=
  ⟨fun _ => rfl, rfl, rfl,
   fun _ _ _ _ _ _ _ => ⟨rfl, rfl, rfl, rfl, rfl⟩⟩

/-- Invariant: every reachable session state keeps both coordinate pairs
strictly inside the NYC box — the initial defaults are inside and every
write is guarded by `is_within_nyc`. -/
theorem reachable_coords_within :
    ∀ s : SessionState, Reachable s →
      is_within_nyc s.pickup_lon s.pickup_lat = true ∧
      is_within_nyc s.dropoff_lon s.dropoff_lat = true := by
  intro s h
  induction h with
  | init => decide
  | step s u now sb inp hr ih =>
    obtain ⟨ih1, ih2⟩ := ih
    constructor
    · cases hc : inp.pickClick with
      | none => simpa [renderStep, applyClick, hc] using ih1
      | some e =>
        cases hw : is_within_nyc e.lon e.lat
        · simpa [renderStep, applyClick, hc, hw] using ih1
        · simp [renderStep, applyClick, hc, hw]
    · cases hc : inp.dropClick with
      | none => simpa [renderStep, applyClick, hc] using ih2
      | some e =>
        cases hw : is_within_nyc e.lon e.lat
        · simpa [renderStep, applyClick, hc, hw] using ih2
        · simp [renderStep, applyClick, hc, hw]

/-- C10: in every reachable session state both coordinate pairs satisfy
`is_within_nyc`, so the submit-time geofence error branches (no request,
"Pickup outside NYC." / "Dropoff outside NYC.") can never be the outcome
of a submit. -/
theorem C10_geofence_error_branches_unreachable :
    ∀ s : SessionState, Reachable s →
      (is_within_nyc s.pickup_lon s.pickup_lat = true ∧
       is_within_nyc s.dropoff_lon s.dropoff_lat = true) ∧
      (∀ (apiUrl : String) (dt now : PyDatetime) (pc : ℕ) (api : ApiOutcome),
        estimateFare apiUrl
            { state := s, dt_raw := dt, now := now, passenger_count := pc } api ≠
          { requests := [], message := .errMsg "Pickup outside NYC." } ∧
        estimateFare apiUrl
            { state := s, dt_raw := dt, now := now, passenger_count := pc } api ≠
          { requests := [], message := .errMsg "Dropoff outside NYC." }) := by
  intro s h
  have hw := reachable_coords_within s h
  refine ⟨hw, ?_⟩
  intro u dt now pc api
  cases h1 : dt_valid dt now
  · constructor <;> simp [estimateFare, h1]
  · constructor <;>
      (cases api with
       | exn e => simp [estimateFare, h1, hw.1, hw.2]
       | resp status fare =>
         by_cases hs : status = 200
         · cases fare <;> simp [estimateFare, h1, hw.1, hw.2, hs]
         · simp [estimateFare, h1, hw.1, hw.2, hs])

/-- Witness for C10: the initial state is reachable, its defaults lie
inside the box, and a submit from it can never produce a geofence error
outcome. -/
theorem C10_geofence_witness :
    is_within_nyc initState.pickup_lon initState.pickup_lat = true ∧
    is_within_nyc initState.dropoff_lon initState.dropoff_lat = true ∧
    estimateFare "u"
        { state := initState, dt_raw := dtFuture, now := dtPast,
          passenger_count := 2 } (.resp 200 none) ≠
      { requests := [], message := .errMsg "Pickup outside NYC." } := by
  have h := C10_geofence_error_branches_unreachable initState Reachable.init
  exact ⟨h.1.1, h.1.2, (h.2 "u" dtFuture dtPast 2 (.resp 200 none)).1⟩

end TaxiFare
